import Mathlib

/-! The `ty` tools: descriptor set notifier and Win32 system helpers.

Shallow embedding of

* `src/qt/descriptor_set_notifier.cc` (class `DescriptorSetNotifier`), and
* `src/lib/system_win32.c` (`ty_millis`, `get_special_folder`, `ty_find_config`,
  `ty_user_config`),

followed by the theorems about them.

Conventions.  The object state of a `DescriptorSetNotifier` is an explicit record;
every member function is a pure function on that record.  A member function that can
`emit activated(desc)` returns the new state together with the list of emitted payloads.
Qt objects used by the class (`QTimer`, `QSocketNotifier` / `QWinEventNotifier`) are
represented by the part of their state the class reads or writes.
-/

namespace Ty

/-! ## Data model of `descriptor_set_notifier.cc` -/

/-- The handle type `ty_descriptor` (an `int` file descriptor, or a `HANDLE` on Win32). -/
abbrev ty_descriptor := Int

/-- The C struct `ty_descriptor_set`, as far as `addDescriptorSet` reads it: the field
`count` and the array `desc`, read as `set->desc[i]`. -/
structure ty_descriptor_set where
  count : Nat
  desc : Nat → ty_descriptor

/-- One element of `notifiers_`: a `QSocketNotifier` (or `QWinEventNotifier`) built on a
descriptor, with its enabled flag. -/
structure Notifier where
  desc : ty_descriptor
  enabled : Bool
  deriving DecidableEq

/-- The member `interval_timer_`: the interval of the `QTimer` and whether it is running. -/
structure QTimer where
  interval : Int
  active : Bool
  deriving DecidableEq

/-- The members of `DescriptorSetNotifier`. -/
structure DescriptorSetNotifier where
  notifiers_ : List Notifier
  enabled_ : Bool
  interval_timer_ : QTimer
  deriving DecidableEq

namespace QTimer

/-- The Qt function `QTimer::setInterval`: stores the interval; a running timer is restarted with the
new interval and so stays running. -/
def setInterval (t : QTimer) (msec : Int) : QTimer :=
  { t with interval := msec }

/-- The Qt function `QTimer::start()`: the timer runs (a running timer is restarted). -/
def start (t : QTimer) : QTimer :=
  { t with active := true }

/-- A single-shot timer stops when it times out. -/
def expire (t : QTimer) : QTimer :=
  { t with active := false }

end QTimer

namespace DescriptorSetNotifier

/-- The function `DescriptorSetNotifier::clear`: `notifiers_.clear()`. -/
def clear (self : DescriptorSetNotifier) : DescriptorSetNotifier :=
  { self with notifiers_ := [] }

/-- The function `DescriptorSetNotifier::addDescriptorSet`: for `i = 0 .. set->count - 1`,
build a notifier on `set->desc[i]`, give it the enabled state `enabled_`, and push it at
the back of `notifiers_`. -/
def addDescriptorSet (self : DescriptorSetNotifier) (set : ty_descriptor_set) :
    DescriptorSetNotifier :=
  (List.range set.count).foldl
    (fun st i =>
      let notifier : Notifier := { desc := set.desc i, enabled := st.enabled_ }
      { st with notifiers_ := st.notifiers_ ++ [notifier] })
    self

/-- The function `DescriptorSetNotifier::setDescriptorSet`: `clear()` then
`addDescriptorSet(set)`. -/
def setDescriptorSet (self : DescriptorSetNotifier) (set : ty_descriptor_set) :
    DescriptorSetNotifier :=
  addDescriptorSet (clear self) set

/-- The function `DescriptorSetNotifier::setMinInterval`: a negative interval becomes 0,
then `interval_timer_.setInterval(interval)`. -/
def setMinInterval (self : DescriptorSetNotifier) (interval : Int) : DescriptorSetNotifier :=
  let interval := if interval < 0 then 0 else interval
  { self with interval_timer_ := self.interval_timer_.setInterval interval }

/-- The function `DescriptorSetNotifier::isEnabled`. -/
def isEnabled (self : DescriptorSetNotifier) : Bool :=
  self.enabled_

/-- The function `DescriptorSetNotifier::minInterval`. -/
def minInterval (self : DescriptorSetNotifier) : Int :=
  self.interval_timer_.interval

/-- The function `DescriptorSetNotifier::setEnabled`: store the flag and set every notifier
of `notifiers_` to it. -/
def setEnabled (self : DescriptorSetNotifier) (enable : Bool) : DescriptorSetNotifier :=
  { self with
    enabled_ := enable
    notifiers_ := self.notifiers_.map (fun notifier => { notifier with enabled := enable }) }

/-- The slot `DescriptorSetNotifier::activatedDesc`.  Returns the new state and the payloads
of the `activated` signals emitted. -/
def activatedDesc (self : DescriptorSetNotifier) (desc : ty_descriptor) :
    DescriptorSetNotifier × List ty_descriptor :=
  if !self.enabled_ then
    (self, [])
  else
    let self :=
      if self.interval_timer_.interval > 0 then
        let self := setEnabled self false
        let self := { self with enabled_ := true }
        { self with interval_timer_ := self.interval_timer_.start }
      else
        self
    (self, [desc])

/-- The slot `DescriptorSetNotifier::restoreNotifiers`.  Returns the new state and the
payloads of the `activated` signals emitted (the slot has no `emit`). -/
def restoreNotifiers (self : DescriptorSetNotifier) :
    DescriptorSetNotifier × List ty_descriptor :=
  if !self.enabled_ then
    (self, [])
  else
    (setEnabled self true, [])

/-- The constructor `DescriptorSetNotifier::DescriptorSetNotifier(set, parent)`.  The member
initialiser of `enabled_` is in the class declaration, so its value is the parameter
`enabled0`; a fresh `QTimer` has interval 0 and is not running. -/
def new (enabled0 : Bool) (set : Option ty_descriptor_set) : DescriptorSetNotifier :=
  let self : DescriptorSetNotifier :=
    { notifiers_ := [], enabled_ := enabled0, interval_timer_ := { interval := 0, active := false } }
  match set with
  | some set => addDescriptorSet self set
  | none => self

/-! ### The event loop around the object -/

/-- The `timeout` signal of the single-shot `interval_timer_`, connected to
`restoreNotifiers` by the constructor: a running timer stops and the slot runs; a timer
that is not running never times out. -/
def timerExpiry (self : DescriptorSetNotifier) :
    DescriptorSetNotifier × List ty_descriptor :=
  if self.interval_timer_.active then
    restoreNotifiers { self with interval_timer_ := self.interval_timer_.expire }
  else
    (self, [])

/-- The `activated` signal of the `i`-th notifier of `notifiers_`, connected to
`activatedDesc` by `addDescriptorSet`: a notifier delivers its descriptor only while it is
enabled. -/
def watcherActivated (self : DescriptorSetNotifier) (i : Nat) :
    DescriptorSetNotifier × List ty_descriptor :=
  match self.notifiers_[i]? with
  | some notifier => if notifier.enabled then activatedDesc self notifier.desc else (self, [])
  | none => (self, [])

/-- Everything that can happen to the object: the public member functions, an activation of
a notifier, and the expiry of the timer. -/
inductive Op where
  | setDescriptorSet (set : ty_descriptor_set)
  | addDescriptorSet (set : ty_descriptor_set)
  | setEnabled (enable : Bool)
  | setMinInterval (interval : Int)
  | clear
  | watcher (i : Nat)
  | timerExpiry

/-- One operation: the new state and the `activated` payloads it emitted. -/
def step (self : DescriptorSetNotifier) : Op → DescriptorSetNotifier × List ty_descriptor
  | .setDescriptorSet set => (setDescriptorSet self set, [])
  | .addDescriptorSet set => (addDescriptorSet self set, [])
  | .setEnabled enable => (setEnabled self enable, [])
  | .setMinInterval interval => (setMinInterval self interval, [])
  | .clear => (clear self, [])
  | .watcher i => watcherActivated self i
  | .timerExpiry => timerExpiry self

/-- A sequence of operations, left to right, with all the payloads emitted on the way. -/
def run (self : DescriptorSetNotifier) : List Op → DescriptorSetNotifier × List ty_descriptor
  | [] => (self, [])
  | op :: ops =>
    let r := step self op
    let rest := run r.1 ops
    (rest.1, r.2 ++ rest.2)

/-- A sequence of direct calls `activatedDesc(d1)`, ..., `activatedDesc(dk)`. -/
def activatedDescs (self : DescriptorSetNotifier) :
    List ty_descriptor → DescriptorSetNotifier × List ty_descriptor
  | [] => (self, [])
  | d :: ds =>
    let r := activatedDesc self d
    let rest := activatedDescs r.1 ds
    (rest.1, r.2 ++ rest.2)

/-- Every notifier of `notifiers_` has the enabled flag `b`. -/
def allWatchers (self : DescriptorSetNotifier) (b : Bool) : Prop :=
  ∀ notifier ∈ self.notifiers_, notifier.enabled = b

instance (self : DescriptorSetNotifier) (b : Bool) : Decidable (allWatchers self b) := by
  unfold allWatchers; infer_instance

/-- The descriptors watched, in the order of `notifiers_`. -/
def descriptors (self : DescriptorSetNotifier) : List ty_descriptor :=
  self.notifiers_.map Notifier.desc

/-- The notifiers `addDescriptorSet` builds for `set` when `enabled_` is `enable`. -/
def watchersOf (set : ty_descriptor_set) (enable : Bool) : List Notifier :=
  (List.range set.count).map (fun i => { desc := set.desc i, enabled := enable })

/-- Whether `op`, applied in state `self`, puts an enabled watcher into the list: these are
`setEnabled(true)` on a non-empty watcher list, and `addDescriptorSet` /
`setDescriptorSet` of a non-empty set while `isEnabled()` is true. -/
def enablesWatcher (self : DescriptorSetNotifier) : Op → Bool
  | .setEnabled enable => enable && !self.notifiers_.isEmpty
  | .addDescriptorSet set => self.enabled_ && decide (0 < set.count)
  | .setDescriptorSet set => self.enabled_ && decide (0 < set.count)
  | _ => false

/-- Whether `op`, applied in state `self`, leaves no enabled watcher beside a running timer,
whatever the state was: the timer expiry (the timer stops), a watcher activation that
emits while `minInterval() > 0` (it opens a window), `setEnabled(false)`, `clear`, and
`setEnabled` / `setDescriptorSet` that do not put an enabled watcher into the list. -/
def closesWindow (self : DescriptorSetNotifier) : Op → Bool
  | .timerExpiry => true
  | .watcher i => !(watcherActivated self i).2.isEmpty && decide (0 < minInterval self)
  | .setEnabled enable => !enablesWatcher self (.setEnabled enable)
  | .clear => true
  | .setDescriptorSet set => !enablesWatcher self (.setDescriptorSet set)
  | _ => false

/-- The history condition of the coalescing window, along a sequence of operations from
state `self`.  The flag `kept` is set whenever the timer is not running after an
operation or the operation is one of `closesWindow`, and it is cleared only by an
operation of `enablesWatcher` applied while the timer keeps running; the result is the
flag at the end.  So the result is true when no operation of `enablesWatcher` was applied
since the flag was last set. -/
def windowKept (self : DescriptorSetNotifier) (kept : Bool) : List Op → Bool
  | [] => kept
  | op :: ops =>
    let next := (step self op).1
    windowKept next
      (!next.interval_timer_.active || closesWindow self op || (kept && !enablesWatcher self op))
      ops

/-- While the timer runs, every notifier is disabled. -/
def windowInvariant (self : DescriptorSetNotifier) : Prop :=
  self.interval_timer_.active = true → allWatchers self false

instance (self : DescriptorSetNotifier) : Decidable (windowInvariant self) := by
  unfold windowInvariant; infer_instance

/-- A descriptor set with the single descriptor `d`. -/
def singleton (d : ty_descriptor) : ty_descriptor_set :=
  { count := 1, desc := fun _ => d }

end DescriptorSetNotifier

/-! ## Model of `system_win32.c` -/

/-- The constant `delta_epoch`: milliseconds from 1601-01-01 to 1970-01-01. -/
def delta_epoch : Nat := 11644473600000

/-- The Win32 struct `FILETIME`: two `DWORD` fields (32-bit unsigned). -/
structure FILETIME where
  dwLowDateTime : Nat
  dwHighDateTime : Nat
  deriving DecidableEq

/-- The function `ty_millis`, on the `FILETIME` that `GetSystemTimeAsFileTime` stored in
`ft`.  `DWORD` values are taken modulo `2^32`, `uint64_t` arithmetic is modulo `2^64`. -/
def ty_millis (ft : FILETIME) : Nat :=
  let millis := (((ft.dwHighDateTime % 2 ^ 32) <<< 32) % 2 ^ 64) ||| (ft.dwLowDateTime % 2 ^ 32)
  let millis := (millis / 10000 + 2 ^ 64 - delta_epoch) % 2 ^ 64
  millis

/-- The `FILETIME` holding a count of 100 ns ticks since 1601-01-01. -/
def FILETIME.ofTicks (ticks : Nat) : FILETIME :=
  { dwLowDateTime := ticks % 2 ^ 32, dwHighDateTime := ticks / 2 ^ 32 }

/-- The Windows SDK constant `CSIDL_LOCAL_APPDATA`. -/
def CSIDL_LOCAL_APPDATA : Int := 0x001c

/-- The Windows SDK constant `CSIDL_COMMON_APPDATA`. -/
def CSIDL_COMMON_APPDATA : Int := 0x0023

/-- What `system_win32.c` calls and does not define: the operating system and the helpers
`ty_error` and `ty_mkdir` of the library.

* `SHGetFolderPath folder def` is the folder path stored in `buf`, or `none` when the call
  fails (`FAILED(hr)`);
* `alloc` says whether `asprintf` / `strdup` get their memory;
* `_access path` is the result of `_access(path, 0)`;
* `ty_mkdir path` is the result of `ty_mkdir(path, 0755, ...)` with the flags of
  `ty_user_config`;
* `ty_error err` is the (negative) value `ty_error(err, ...)` returns. -/
structure Win32 where
  SHGetFolderPath : Int → Bool → Option String
  alloc : Bool
  _access : String → Int
  ty_mkdir : String → Int
  TY_ERROR_SYSTEM : Int
  TY_ERROR_MEMORY : Int
  ty_error : Int → Int

/-- The function `get_special_folder`.  A `char *` variable is an `Option String` (`none`:
never assigned).  Returns the `int` result and the content of `*rpath` afterwards. -/
def get_special_folder (env : Win32) (rpath : Option String) (folder : Int)
    (name : Option String) (dflt : Bool) : Int × Option String :=
  match env.SHGetFolderPath folder dflt with
  | none => (env.ty_error env.TY_ERROR_SYSTEM, rpath)
  | some buf =>
    if !env.alloc then
      (env.ty_error env.TY_ERROR_MEMORY, rpath)
    else
      let path :=
        match name with
        | some name => buf ++ "\\" ++ name
        | none => buf
      if env._access path ≠ 0 then (0, some path) else (1, some path)

/-- One expansion of the macro `SPECIAL(folder, def)` of `ty_find_config`, on the caller
variable `*rpath`: `some` is the `return` taken (result and `*rpath`), `none` means the
macro fell through to `free(path)`. -/
def ty_find_config.SPECIAL (env : Win32) (rpath : Option String) (name : String)
    (folder : Int) (dflt : Bool) : Option (Int × Option String) :=
  let (r, path) := get_special_folder env none folder (some name) dflt
  if r ≠ 0 then
    some (r, if r = 1 then path else rpath)
  else
    none

/-- The function `ty_find_config`: the result and the content of `*rpath` afterwards. -/
def ty_find_config (env : Win32) (rpath : Option String) (name : String) :
    Int × Option String :=
  match ty_find_config.SPECIAL env rpath name CSIDL_LOCAL_APPDATA false with
  | some ret => ret
  | none =>
    match ty_find_config.SPECIAL env rpath name CSIDL_LOCAL_APPDATA true with
    | some ret => ret
    | none =>
      match ty_find_config.SPECIAL env rpath name CSIDL_COMMON_APPDATA false with
      | some ret => ret
      | none => (0, rpath)

/-- The function `ty_user_config`: the result and the content of `*rpath` afterwards.  The
path goes to the local variable `path`; no statement of the function assigns `*rpath`. -/
def ty_user_config (env : Win32) (rpath : Option String) (name : String)
    (make_parents : Bool) : Int × Option String :=
  let (r, path) := get_special_folder env none CSIDL_LOCAL_APPDATA (some name) false
  if r < 0 then
    (r, rpath)
  else if make_parents then
    let r := env.ty_mkdir (path.getD "")
    if r < 0 then
      (r, rpath)
    else
      (0, rpath)
  else
    (0, rpath)

/-- A machine on which the local application data folder exists and holds no `ty.ini`. -/
def exampleWin32 : Win32 where
  SHGetFolderPath := fun folder _ =>
    if folder = CSIDL_LOCAL_APPDATA then some "C:\\Users\\u\\AppData\\Local" else none
  alloc := true
  _access := fun _ => -1
  ty_mkdir := fun _ => 0
  TY_ERROR_SYSTEM := -8
  TY_ERROR_MEMORY := -1
  ty_error := fun err => err

/-- The same machine once `ty.ini` exists in the local application data folder. -/
def exampleWin32Found : Win32 :=
  { exampleWin32 with _access := fun _ => 0 }

end Ty

/-! ## Theorems about `DescriptorSetNotifier` -/

namespace Ty.DescriptorSetNotifier

theorem addDescriptorSet_eq (self : DescriptorSetNotifier) (set : ty_descriptor_set) :
    addDescriptorSet self set =
      { self with notifiers_ := self.notifiers_ ++ watchersOf set self.enabled_ } := by
  unfold addDescriptorSet watchersOf
  generalize set.count = n
  induction n with
  | zero => simp
  | succ n ih => simp [List.range_succ, List.foldl_append, ih]

theorem setDescriptorSet_eq (self : DescriptorSetNotifier) (set : ty_descriptor_set) :
    setDescriptorSet self set = { self with notifiers_ := watchersOf set self.enabled_ } := by
  simp [setDescriptorSet, addDescriptorSet_eq, clear]

theorem watchersOf_length (set : ty_descriptor_set) (enable : Bool) :
    (watchersOf set enable).length = set.count := by
  simp [watchersOf]

theorem watchersOf_desc (set : ty_descriptor_set) (enable : Bool) :
    (watchersOf set enable).map Notifier.desc = (List.range set.count).map set.desc := by
  simp [watchersOf, Function.comp_def]

/-- C5: `setDescriptorSet(s)` leaves exactly the `s.count` watchers built on
`s.desc[0], ..., s.desc[count-1]`, whatever the prior watcher list was, so calling it twice
equals calling it once; `addDescriptorSet(s)` keeps the prior watcher list and puts the
same `s.count` new watchers behind it.  Neither touches `enabled_` or the timer. -/
theorem setDescriptorSet_replaces_addDescriptorSet_appends
    (self : DescriptorSetNotifier) (set : ty_descriptor_set) :
    (setDescriptorSet self set).notifiers_.length = set.count
    ∧ (∀ i, (descriptors (setDescriptorSet self set))[i]?
          = if i < set.count then some (set.desc i) else none)
    ∧ (setDescriptorSet self set).notifiers_ = watchersOf set self.enabled_
    ∧ setDescriptorSet (setDescriptorSet self set) set = setDescriptorSet self set
    ∧ (addDescriptorSet self set).notifiers_
        = self.notifiers_ ++ (setDescriptorSet self set).notifiers_
    ∧ descriptors (addDescriptorSet self set)
        = descriptors self ++ (List.range set.count).map set.desc
    ∧ (setDescriptorSet self set).enabled_ = self.enabled_
    ∧ (setDescriptorSet self set).interval_timer_ = self.interval_timer_
    ∧ (addDescriptorSet self set).enabled_ = self.enabled_
    ∧ (addDescriptorSet self set).interval_timer_ = self.interval_timer_ := by
  refine ⟨?_, ?_, ?_, ?_, ?_, ?_, ?_, ?_, ?_, ?_⟩
  · simp [setDescriptorSet_eq, watchersOf_length]
  · intro i
    simp only [descriptors, setDescriptorSet_eq, watchersOf_desc]
    by_cases h : i < set.count
    · simp [h, List.getElem?_map, List.getElem?_range]
    · simp [h, not_lt.mp h]
  · simp [setDescriptorSet_eq]
  · simp [setDescriptorSet_eq]
  · simp [setDescriptorSet_eq, addDescriptorSet_eq]
  · simp [descriptors, addDescriptorSet_eq, watchersOf_desc]
  · simp [setDescriptorSet_eq]
  · simp [setDescriptorSet_eq]
  · simp [addDescriptorSet_eq]
  · simp [addDescriptorSet_eq]

/-- C6: after `setMinInterval(interval)` the getter `minInterval()` returns
`max(interval, 0)`, which is never negative. -/
theorem setMinInterval_clamps (self : DescriptorSetNotifier) (interval : Int) :
    minInterval (setMinInterval self interval) = max interval 0
    ∧ 0 ≤ minInterval (setMinInterval self interval) := by
  unfold minInterval setMinInterval QTimer.setInterval
  by_cases h : interval < 0
  · simp [h, le_of_lt h]
  · simp [h, not_lt.mp h]

theorem activatedDesc_emits (self : DescriptorSetNotifier) (desc : ty_descriptor)
    (hen : self.enabled_ = true) : (activatedDesc self desc).2 = [desc] := by
  simp [activatedDesc, hen]

/-- C3: `activatedDesc(desc)` emits exactly one `activated` event, carrying `desc`, when
`isEnabled()` is true; when `isEnabled()` is false it emits nothing and returns the state
as it was (watcher flags, timer, enabled flag and interval). -/
theorem activatedDesc_delivery (self : DescriptorSetNotifier) (desc : ty_descriptor) :
    (isEnabled self = true → (activatedDesc self desc).2 = [desc])
    ∧ (isEnabled self = false → activatedDesc self desc = (self, [])) := by
  constructor
  · intro h
    exact activatedDesc_emits self desc h
  · intro h
    simp only [isEnabled] at h
    simp [activatedDesc, h]

theorem activatedDesc_delivery_witness :
    (activatedDesc (new true (some (singleton 7))) 7).2 = [7]
    ∧ activatedDesc (new false (some (singleton 7))) 7 = (new false (some (singleton 7)), []) :=
  ⟨(activatedDesc_delivery (new true (some (singleton 7))) 7).1 (by decide),
   (activatedDesc_delivery (new false (some (singleton 7))) 7).2 (by decide)⟩

theorem setEnabled_allWatchers (self : DescriptorSetNotifier) (enable : Bool) :
    allWatchers (setEnabled self enable) enable := by
  intro notifier hmem
  simp only [setEnabled, List.mem_map] at hmem
  obtain ⟨w, _, rfl⟩ := hmem
  rfl

theorem setEnabled_descriptors (self : DescriptorSetNotifier) (enable : Bool) :
    descriptors (setEnabled self enable) = descriptors self := by
  simp [descriptors, setEnabled, Function.comp_def]

/-- C4: in a state with `isEnabled()` true and the coalescing timer running (in particular
one whose watchers were all disabled by an activation with `minInterval() > 0`),
`restoreNotifiers`, the expiry handler of the one-shot timer, enables every watcher, emits
no `activated` event, and keeps `isEnabled()`, `minInterval()` and the descriptors of the
watcher list; the same holds for the timer expiry as a whole, after which the timer no
longer runs. -/
theorem restoreNotifiers_reenables (self : DescriptorSetNotifier)
    (hen : isEnabled self = true)
    (hrun : self.interval_timer_.active = true) :
    allWatchers (restoreNotifiers self).1 true
    ∧ (restoreNotifiers self).2 = []
    ∧ isEnabled (restoreNotifiers self).1 = isEnabled self
    ∧ minInterval (restoreNotifiers self).1 = minInterval self
    ∧ descriptors (restoreNotifiers self).1 = descriptors self
    ∧ allWatchers (timerExpiry self).1 true
    ∧ (timerExpiry self).2 = []
    ∧ isEnabled (timerExpiry self).1 = isEnabled self
    ∧ minInterval (timerExpiry self).1 = minInterval self
    ∧ descriptors (timerExpiry self).1 = descriptors self
    ∧ (timerExpiry self).1.interval_timer_.active = false := by
  simp only [isEnabled] at hen
  have hr : restoreNotifiers self = (setEnabled self true, []) := by
    simp [restoreNotifiers, hen]
  have ht : timerExpiry self
      = (setEnabled { self with interval_timer_ := self.interval_timer_.expire } true, []) := by
    simp [timerExpiry, hrun, restoreNotifiers, hen]
  rw [hr, ht]
  refine ⟨setEnabled_allWatchers _ _, rfl, ?_, rfl, setEnabled_descriptors _ _,
    setEnabled_allWatchers _ _, rfl, ?_, rfl, setEnabled_descriptors _ _, rfl⟩
  · simp [isEnabled, setEnabled, hen]
  · simp [isEnabled, setEnabled, hen]

/-- The state after one activation of the only watcher, with a window of 100 ms. -/
theorem restoreNotifiers_reenables_witness :
    let window := (activatedDesc (setMinInterval (new true (some (singleton 7))) 100) 7).1
    allWatchers (restoreNotifiers window).1 true
    ∧ (restoreNotifiers window).2 = []
    ∧ isEnabled (restoreNotifiers window).1 = isEnabled window
    ∧ minInterval (restoreNotifiers window).1 = minInterval window
    ∧ descriptors (restoreNotifiers window).1 = descriptors window
    ∧ allWatchers (timerExpiry window).1 true
    ∧ (timerExpiry window).2 = []
    ∧ isEnabled (timerExpiry window).1 = isEnabled window
    ∧ minInterval (timerExpiry window).1 = minInterval window
    ∧ descriptors (timerExpiry window).1 = descriptors window
    ∧ (timerExpiry window).1.interval_timer_.active = false :=
  restoreNotifiers_reenables
    (activatedDesc (setMinInterval (new true (some (singleton 7))) 100) 7).1
    (by decide) (by decide)

/-- C7: with `isEnabled()` true and `minInterval() = 0`, the calls `activatedDesc(d1)`,
..., `activatedDesc(dk)` emit exactly the `k` events `d1, ..., dk`, in that order, and
leave the state as it was: no watcher is disabled and the timer is not started. -/
theorem activatedDescs_zero_interval (self : DescriptorSetNotifier)
    (ds : List ty_descriptor) (hen : isEnabled self = true) (hzero : minInterval self = 0) :
    activatedDescs self ds = (self, ds)
    ∧ (activatedDescs self ds).2.length = ds.length
    ∧ (∀ d, activatedDesc self d = (self, [d])) := by
  simp only [isEnabled] at hen
  simp only [minInterval] at hzero
  have hone : ∀ d, activatedDesc self d = (self, [d]) := by
    intro d
    simp [activatedDesc, hen, hzero]
  have hall : activatedDescs self ds = (self, ds) := by
    induction ds with
    | nil => rfl
    | cons d ds ih => simp [activatedDescs, hone, ih]
  exact ⟨hall, by rw [hall], hone⟩

theorem activatedDescs_zero_interval_witness :
    activatedDescs (new true (some (singleton 7))) [7, 7, 9]
      = (new true (some (singleton 7)), [7, 7, 9])
    ∧ (activatedDescs (new true (some (singleton 7))) [7, 7, 9]).2.length = 3 :=
  have h := activatedDescs_zero_interval (new true (some (singleton 7))) [7, 7, 9]
    (by decide) (by decide)
  ⟨h.1, h.2.1⟩

theorem watcherActivated_of_disabled (self : DescriptorSetNotifier) (i : Nat)
    (h : allWatchers self false) : watcherActivated self i = (self, []) := by
  unfold watcherActivated
  cases hget : self.notifiers_[i]? with
  | none => rfl
  | some notifier =>
    have hmem : notifier ∈ self.notifiers_ := List.getElem?_mem hget
    simp [h notifier hmem]

theorem run_watchers_of_disabled (self : DescriptorSetNotifier) (burst : List Nat)
    (h : allWatchers self false) : run self (burst.map Op.watcher) = (self, []) := by
  induction burst with
  | nil => rfl
  | cons i burst ih => simp [run, step, watcherActivated_of_disabled self i h, ih]

theorem watcherActivated_of_enabled (self : DescriptorSetNotifier) (i : Nat)
    (hall : allWatchers self true) (hi : i < self.notifiers_.length) :
    watcherActivated self i = activatedDesc self (self.notifiers_[i]).desc := by
  unfold watcherActivated
  have hget : self.notifiers_[i]? = some (self.notifiers_[i]) := List.getElem?_eq_getElem hi
  have hon : (self.notifiers_[i]).enabled = true := hall _ (List.getElem_mem hi)
  rw [hget]
  simp [hon]

theorem activatedDesc_opens_window (self : DescriptorSetNotifier) (desc : ty_descriptor)
    (hen : self.enabled_ = true) (hpos : 0 < self.interval_timer_.interval) :
    activatedDesc self desc =
      ({ notifiers_ := (setEnabled self false).notifiers_, enabled_ := true,
         interval_timer_ := self.interval_timer_.start }, [desc]) := by
  simp [activatedDesc, hen, hpos, setEnabled]

theorem run_append (self : DescriptorSetNotifier) (ops more : List Op) :
    run self (ops ++ more) =
      ((run (run self ops).1 more).1, (run self ops).2 ++ (run (run self ops).1 more).2) := by
  induction ops generalizing self with
  | nil => simp [run]
  | cons op ops ih => simp [run, ih, List.append_assoc]

theorem descriptors_getElem? (self : DescriptorSetNotifier) (i : Nat)
    (hi : i < self.notifiers_.length) :
    (descriptors self)[i]?.toList = [(self.notifiers_[i]).desc] := by
  simp [descriptors, List.getElem?_map, List.getElem?_eq_getElem hi]

/-- C1: from a state with `isEnabled()` true, every watcher enabled and
`minInterval() = N > 0` (in particular one whose timer is not running), where a watcher calls `activatedDesc` only while it is enabled:
the first watcher activation emits exactly one event (the descriptor of that watcher) and
starts the timer; any sequence `burst` of further watcher activations before the timer
expires emits nothing and changes nothing, so one event in total; and after the timer
expiry (which emits nothing) the next watcher activation emits exactly one more event. -/
theorem debounce_burst (self : DescriptorSetNotifier) (N : Int) (i j : Nat) (burst : List Nat)
    (hen : isEnabled self = true)
    (hall : allWatchers self true) (hN : minInterval self = N) (hpos : 0 < N)
    (hi : i < self.notifiers_.length) (hj : j < self.notifiers_.length) :
    (watcherActivated self i).2 = (descriptors self)[i]?.toList
    ∧ (watcherActivated self i).2.length = 1
    ∧ (watcherActivated self i).1.interval_timer_.active = true
    ∧ (run (watcherActivated self i).1 (burst.map Op.watcher)).2 = []
    ∧ (run (watcherActivated self i).1 (burst.map Op.watcher)).1 = (watcherActivated self i).1
    ∧ (run self (Op.watcher i :: burst.map Op.watcher)).2.length = 1
    ∧ (timerExpiry (run self (Op.watcher i :: burst.map Op.watcher)).1).2 = []
    ∧ (watcherActivated
          (timerExpiry (run self (Op.watcher i :: burst.map Op.watcher)).1).1 j).2
        = (descriptors self)[j]?.toList
    ∧ (watcherActivated
          (timerExpiry (run self (Op.watcher i :: burst.map Op.watcher)).1).1 j).2.length = 1
    ∧ (run self (Op.watcher i :: burst.map Op.watcher ++ [Op.timerExpiry, Op.watcher j])).2.length
        = 2 := by
  simp only [isEnabled] at hen
  simp only [minInterval] at hN
  have hposI : 0 < self.interval_timer_.interval := by rw [hN]; exact hpos
  -- the first activation opens the window
  have hfirst : watcherActivated self i =
      ({ notifiers_ := (setEnabled self false).notifiers_, enabled_ := true,
         interval_timer_ := self.interval_timer_.start }, [(self.notifiers_[i]).desc]) := by
    rw [watcherActivated_of_enabled self i hall hi, activatedDesc_opens_window self _ hen hposI]
  have hoff : allWatchers (watcherActivated self i).1 false := by
    rw [hfirst]
    exact setEnabled_allWatchers self false
  -- the burst is swallowed
  have hburst := run_watchers_of_disabled (watcherActivated self i).1 burst hoff
  have hrun : run self (Op.watcher i :: burst.map Op.watcher)
      = ((watcherActivated self i).1, [(self.notifiers_[i]).desc]) := by
    simp only [run, step, hburst]
    rw [hfirst]
    simp
  -- the expiry enables the watchers again
  have hexp : timerExpiry (watcherActivated self i).1 =
      ({ notifiers_ := (setEnabled self true).notifiers_, enabled_ := true,
         interval_timer_ := self.interval_timer_.expire }, []) := by
    rw [hfirst]
    simp [timerExpiry, QTimer.start, QTimer.expire, restoreNotifiers, setEnabled,
      Function.comp_def]
  have hnext : watcherActivated (timerExpiry (watcherActivated self i).1).1 j
      = activatedDesc (timerExpiry (watcherActivated self i).1).1 (self.notifiers_[j]).desc := by
    have hlen : j < (timerExpiry (watcherActivated self i).1).1.notifiers_.length := by
      rw [hexp]; simpa [setEnabled] using hj
    have hon : allWatchers (timerExpiry (watcherActivated self i).1).1 true := by
      rw [hexp]; exact setEnabled_allWatchers self true
    rw [watcherActivated_of_enabled _ j hon hlen]
    congr 1
    simp [hexp, setEnabled]
  have hnext2 : (watcherActivated (timerExpiry (watcherActivated self i).1).1 j).2
      = [(self.notifiers_[j]).desc] := by
    rw [hnext]
    exact activatedDesc_emits _ _ (by rw [hexp])
  refine ⟨?_, ?_, ?_, ?_, ?_, ?_, ?_, ?_, ?_, ?_⟩
  · rw [descriptors_getElem? self i hi, hfirst]
  · rw [hfirst]; rfl
  · rw [hfirst]; rfl
  · rw [hburst]
  · rw [hburst]
  · rw [hrun]; rfl
  · rw [hrun, hexp]
  · rw [hrun, descriptors_getElem? self j hj]; exact hnext2
  · rw [hrun, hnext2]; rfl
  · have happ : Op.watcher i :: List.map Op.watcher burst ++ [Op.timerExpiry, Op.watcher j]
        = (Op.watcher i :: List.map Op.watcher burst) ++ [Op.timerExpiry, Op.watcher j] := rfl
    rw [happ, run_append, hrun]
    have hnext3 := hnext2
    rw [hexp] at hnext3
    dsimp only at hnext3
    simp only [run, step, hexp, List.append_nil, List.nil_append]
    rw [hnext3]
    rfl

theorem debounce_burst_witness :
    (watcherActivated (setMinInterval (new true (some (singleton 7))) 100) 0).2
      = (descriptors (setMinInterval (new true (some (singleton 7))) 100))[0]?.toList
    ∧ (watcherActivated (setMinInterval (new true (some (singleton 7))) 100) 0).2.length = 1
    ∧ (run (setMinInterval (new true (some (singleton 7))) 100)
        (Op.watcher 0 :: [0, 0, 1].map Op.watcher ++ [Op.timerExpiry, Op.watcher 0])).2.length
        = 2 :=
  have h := debounce_burst (setMinInterval (new true (some (singleton 7))) 100) 100 0 0 [0, 0, 1]
    (by decide) (by decide) (by decide) (by decide) (by decide) (by decide)
  ⟨h.1, h.2.1, h.2.2.2.2.2.2.2.2.2⟩

theorem activatedDesc_windowInvariant (self : DescriptorSetNotifier) (desc : ty_descriptor)
    (hinv : windowInvariant self) : windowInvariant (activatedDesc self desc).1 := by
  cases hen : self.enabled_ with
  | false =>
    have : activatedDesc self desc = (self, []) := by simp [activatedDesc, hen]
    rw [this]; exact hinv
  | true =>
    by_cases hpos : 0 < self.interval_timer_.interval
    · rw [activatedDesc_opens_window self desc hen hpos]
      intro _
      exact setEnabled_allWatchers self false
    · have : activatedDesc self desc = (self, [desc]) := by simp [activatedDesc, hen, hpos]
      rw [this]; exact hinv

theorem watcherActivated_windowInvariant (self : DescriptorSetNotifier) (i : Nat)
    (hinv : windowInvariant self) : windowInvariant (watcherActivated self i).1 := by
  unfold watcherActivated
  cases self.notifiers_[i]? with
  | none => exact hinv
  | some notifier =>
    cases hon : notifier.enabled with
    | false => simpa [hon] using hinv
    | true => simpa [hon] using activatedDesc_windowInvariant self notifier.desc hinv

theorem timerExpiry_not_active (self : DescriptorSetNotifier) :
    (timerExpiry self).1.interval_timer_.active = false := by
  cases ha : self.interval_timer_.active <;> cases hen : self.enabled_ <;>
    simp [timerExpiry, ha, restoreNotifiers, hen, setEnabled, QTimer.expire]

theorem watchersOf_nil (set : ty_descriptor_set) (enable : Bool) (h : ¬ 0 < set.count) :
    watchersOf set enable = [] := by
  have h0 : set.count = 0 := by omega
  simp [watchersOf, h0]

theorem watchersOf_disabled (set : ty_descriptor_set) (notifier : Notifier)
    (hmem : notifier ∈ watchersOf set false) : notifier.enabled = false := by
  simp only [watchersOf, List.mem_map] at hmem
  obtain ⟨_, _, rfl⟩ := hmem
  rfl

theorem watchersOf_quiet (self : DescriptorSetNotifier) (set : ty_descriptor_set)
    (hquiet : (self.enabled_ && decide (0 < set.count)) = false) (notifier : Notifier)
    (hmem : notifier ∈ watchersOf set self.enabled_) : notifier.enabled = false := by
  by_cases hcount : 0 < set.count
  · have hoff : self.enabled_ = false := by simpa [hcount] using hquiet
    rw [hoff] at hmem
    exact watchersOf_disabled set notifier hmem
  · rw [watchersOf_nil set _ hcount] at hmem
    exact absurd hmem (List.not_mem_nil _)

theorem setEnabled_quiet (self : DescriptorSetNotifier) (enable : Bool)
    (hquiet : (enable && !self.notifiers_.isEmpty) = false) :
    allWatchers (setEnabled self enable) false := by
  cases enable with
  | false => exact setEnabled_allWatchers self false
  | true =>
    have hnil : self.notifiers_ = [] := by simpa using hquiet
    intro notifier hmem
    simp [setEnabled, hnil] at hmem

theorem watcherActivated_opens_window (self : DescriptorSetNotifier) (i : Nat)
    (hemit : (watcherActivated self i).2.isEmpty = false) (hpos : 0 < minInterval self) :
    allWatchers (watcherActivated self i).1 false := by
  unfold watcherActivated at hemit ⊢
  cases hget : self.notifiers_[i]? with
  | none => simp [hget] at hemit
  | some notifier =>
    cases hon : notifier.enabled with
    | false => simp [hget, hon] at hemit
    | true =>
      cases hen : self.enabled_ with
      | false => simp [hget, hon, activatedDesc, hen] at hemit
      | true =>
        simp only [hon, if_true]
        rw [activatedDesc_opens_window self _ hen hpos]
        exact setEnabled_allWatchers self false

theorem closesWindow_windowInvariant (self : DescriptorSetNotifier) (op : Op)
    (hclose : closesWindow self op = true) : windowInvariant (step self op).1 := by
  cases op with
  | setDescriptorSet set =>
    intro _
    simp only [step, setDescriptorSet_eq]
    have hquiet : (self.enabled_ && decide (0 < set.count)) = false := by
      simp only [closesWindow, enablesWatcher, Bool.not_eq_true'] at hclose
      exact hclose
    exact fun notifier hmem => watchersOf_quiet self set hquiet notifier hmem
  | addDescriptorSet set => simp [closesWindow] at hclose
  | setEnabled enable =>
    intro _
    have hquiet : (enable && !self.notifiers_.isEmpty) = false := by
      simp only [closesWindow, enablesWatcher, Bool.not_eq_true'] at hclose
      exact hclose
    exact setEnabled_quiet self enable hquiet
  | setMinInterval interval => simp [closesWindow] at hclose
  | clear =>
    intro _ notifier hmem
    simp [step, clear] at hmem
  | watcher i =>
    intro _
    simp only [closesWindow, Bool.and_eq_true, Bool.not_eq_true', decide_eq_true_eq] at hclose
    exact watcherActivated_opens_window self i hclose.1 hclose.2
  | timerExpiry =>
    intro hact
    simp [step, timerExpiry_not_active] at hact

theorem step_windowInvariant (self : DescriptorSetNotifier) (op : Op)
    (hquiet : enablesWatcher self op = false) (hinv : windowInvariant self) :
    windowInvariant (step self op).1 := by
  cases op with
  | setDescriptorSet set =>
    exact closesWindow_windowInvariant self _ (by simp [closesWindow, hquiet])
  | addDescriptorSet set =>
    intro hact
    simp only [step, addDescriptorSet_eq] at hact ⊢
    intro notifier hmem
    rcases List.mem_append.mp hmem with hold | hnew
    · exact hinv hact notifier hold
    · exact watchersOf_quiet self set hquiet notifier hnew
  | setEnabled enable =>
    exact closesWindow_windowInvariant self _ (by simp [closesWindow, hquiet])
  | setMinInterval interval => exact hinv
  | clear => exact closesWindow_windowInvariant self _ rfl
  | watcher i => exact watcherActivated_windowInvariant self i hinv
  | timerExpiry => exact closesWindow_windowInvariant self _ rfl

theorem run_windowKept (self : DescriptorSetNotifier) (kept : Bool) (ops : List Op)
    (hinv : kept = true → windowInvariant self) (hkept : windowKept self kept ops = true) :
    windowInvariant (run self ops).1 := by
  induction ops generalizing self kept with
  | nil => exact hinv hkept
  | cons op ops ih =>
    simp only [windowKept] at hkept
    refine ih (step self op).1 _ ?_ hkept
    intro hflag
    simp only [Bool.or_eq_true, Bool.and_eq_true, Bool.not_eq_true'] at hflag
    rcases hflag with (hidle | hclose) | ⟨hk, hquiet⟩
    · intro hact
      rw [hidle] at hact
      exact absurd hact (by decide)
    · exact closesWindow_windowInvariant self op hclose
    · exact step_windowInvariant self op hquiet (hinv hk)

/-- C2, as the code has it: start in any state (the constructor state, or any other) and
apply any sequence of public operations, watcher activations and timer expiries.  If the
timer is running at the end and, since the last point at which the timer was not running
or an operation of `closesWindow` was applied (timer expiry, an activation that emitted
with `minInterval() > 0`, `setEnabled(false)`, `clear`, a `setDescriptorSet` that adds no
enabled watcher), no operation put an enabled watcher into the list (`setEnabled(true)` on
a non-empty list, `addDescriptorSet` / `setDescriptorSet` of a non-empty set with
`isEnabled()` true), then every watcher of the list is disabled, and no watcher activation
emits an `activated` event or changes the state.  What happened in earlier windows does
not matter. -/
theorem coalescing_window_invariant (self : DescriptorSetNotifier) (ops : List Op) (i : Nat)
    (hkept : windowKept self (!self.interval_timer_.active) ops = true)
    (hrun : (run self ops).1.interval_timer_.active = true) :
    allWatchers (run self ops).1 false
    ∧ watcherActivated (run self ops).1 i = ((run self ops).1, []) := by
  have hinv : (!self.interval_timer_.active) = true → windowInvariant self := by
    intro hidle hact
    rw [hact] at hidle
    exact absurd hidle (by decide)
  have hoff := run_windowKept self _ ops hinv hkept hrun
  exact ⟨hoff, watcherActivated_of_disabled _ i hoff⟩

/-- Two histories from the constructor whose first window is disturbed, by
`setEnabled(true)` and by `addDescriptorSet`, and whose second window is not; and one in
which `setEnabled(false)` follows `setEnabled(true)` inside the same window. -/
theorem coalescing_window_invariant_witness :
    (allWatchers (run (new true (some (singleton 3)))
        [Op.setMinInterval 100, Op.watcher 0, Op.setEnabled true, Op.timerExpiry,
         Op.watcher 0, Op.watcher 0]).1 false
      ∧ watcherActivated (run (new true (some (singleton 3)))
        [Op.setMinInterval 100, Op.watcher 0, Op.setEnabled true, Op.timerExpiry,
         Op.watcher 0, Op.watcher 0]).1 0
        = ((run (new true (some (singleton 3)))
        [Op.setMinInterval 100, Op.watcher 0, Op.setEnabled true, Op.timerExpiry,
         Op.watcher 0, Op.watcher 0]).1, []))
    ∧ (allWatchers (run (new true (some (singleton 3)))
        [Op.setMinInterval 100, Op.watcher 0, Op.addDescriptorSet (singleton 4),
         Op.timerExpiry, Op.watcher 1]).1 false
      ∧ watcherActivated (run (new true (some (singleton 3)))
        [Op.setMinInterval 100, Op.watcher 0, Op.addDescriptorSet (singleton 4),
         Op.timerExpiry, Op.watcher 1]).1 0
        = ((run (new true (some (singleton 3)))
        [Op.setMinInterval 100, Op.watcher 0, Op.addDescriptorSet (singleton 4),
         Op.timerExpiry, Op.watcher 1]).1, []))
    ∧ (allWatchers (run (new true (some (singleton 3)))
        [Op.setMinInterval 100, Op.watcher 0, Op.setEnabled true, Op.setEnabled false]).1 false
      ∧ watcherActivated (run (new true (some (singleton 3)))
        [Op.setMinInterval 100, Op.watcher 0, Op.setEnabled true, Op.setEnabled false]).1 0
        = ((run (new true (some (singleton 3)))
        [Op.setMinInterval 100, Op.watcher 0, Op.setEnabled true, Op.setEnabled false]).1, [])) :=
  ⟨coalescing_window_invariant (new true (some (singleton 3)))
      [Op.setMinInterval 100, Op.watcher 0, Op.setEnabled true, Op.timerExpiry,
       Op.watcher 0, Op.watcher 0] 0 (by decide) (by decide),
   coalescing_window_invariant (new true (some (singleton 3)))
      [Op.setMinInterval 100, Op.watcher 0, Op.addDescriptorSet (singleton 4),
       Op.timerExpiry, Op.watcher 1] 0 (by decide) (by decide),
   coalescing_window_invariant (new true (some (singleton 3)))
      [Op.setMinInterval 100, Op.watcher 0, Op.setEnabled true, Op.setEnabled false] 0
      (by decide) (by decide)⟩

/-- C2 as stated fails.  After an activation with `minInterval() = 100` has started the
timer, `addDescriptorSet` gives the new watcher the flag `enabled_`, which is true, and
`setEnabled(true)` enables every watcher: the timer runs, not every watcher is disabled, and
an activation of an enabled watcher emits a second `activated` event inside the window. -/
theorem coalescing_window_invariant_counterexample :
    (run (new true (some (singleton 3)))
      [Op.setMinInterval 100, Op.watcher 0, Op.addDescriptorSet (singleton 4)]).1.interval_timer_.active
      = true
    ∧ ¬ allWatchers (run (new true (some (singleton 3)))
      [Op.setMinInterval 100, Op.watcher 0, Op.addDescriptorSet (singleton 4)]).1 false
    ∧ (run (new true (some (singleton 3)))
      [Op.setMinInterval 100, Op.watcher 0, Op.addDescriptorSet (singleton 4), Op.watcher 1]).2
      = [3, 4]
    ∧ (run (new true (some (singleton 3)))
      [Op.setMinInterval 100, Op.watcher 0, Op.setEnabled true]).1.interval_timer_.active = true
    ∧ ¬ allWatchers (run (new true (some (singleton 3)))
      [Op.setMinInterval 100, Op.watcher 0, Op.setEnabled true]).1 false
    ∧ (run (new true (some (singleton 3)))
      [Op.setMinInterval 100, Op.watcher 0, Op.setEnabled true, Op.watcher 0]).2 = [3, 3] := by
  decide

end Ty.DescriptorSetNotifier

/-! ## Theorems about `system_win32.c` -/

namespace Ty

theorem ty_millis_eq (ft : FILETIME) (hlow : ft.dwLowDateTime < 2 ^ 32)
    (hhigh : ft.dwHighDateTime < 2 ^ 32) :
    ty_millis ft
      = ((ft.dwHighDateTime * 2 ^ 32 + ft.dwLowDateTime) / 10000 + 2 ^ 64 - delta_epoch)
          % 2 ^ 64 := by
  have hor : 2 ^ 32 * ft.dwHighDateTime ||| ft.dwLowDateTime
      = 2 ^ 32 * ft.dwHighDateTime + ft.dwLowDateTime :=
    (Nat.mul_add_lt_is_or hlow ft.dwHighDateTime).symm
  have hshift : ft.dwHighDateTime * 2 ^ 32 < 2 ^ 64 := by omega
  unfold ty_millis
  simp only [Nat.shiftLeft_eq, Nat.mod_eq_of_lt hhigh, Nat.mod_eq_of_lt hlow,
    Nat.mod_eq_of_lt hshift]
  rw [Nat.mul_comm ft.dwHighDateTime, hor]

theorem ty_millis_ofTicks (ticks : Nat) (hfit : ticks < 2 ^ 64) :
    ty_millis (FILETIME.ofTicks ticks) = (ticks / 10000 + 2 ^ 64 - delta_epoch) % 2 ^ 64 := by
  have hlow : (FILETIME.ofTicks ticks).dwLowDateTime < 2 ^ 32 := by
    simp only [FILETIME.ofTicks]; omega
  have hhigh : (FILETIME.ofTicks ticks).dwHighDateTime < 2 ^ 32 := by
    simp only [FILETIME.ofTicks]; omega
  rw [ty_millis_eq _ hlow hhigh]
  have : ticks / 2 ^ 32 * 2 ^ 32 + ticks % 2 ^ 32 = ticks := by omega
  simp only [FILETIME.ofTicks, this]

/-- C10: for 32-bit `dwHighDateTime` and `dwLowDateTime`, `ty_millis` is
`((high * 2^32 + low) div 10000 - 11644473600000) mod 2^64`; a `FILETIME` of
`(t + 11644473600000) * 10000 + k` ticks with `k < 10000` (a 64-bit count) gives exactly
`t`; and on tick counts at or after the Unix epoch the result does not decrease when the
tick count grows. -/
theorem ty_millis_exact :
    (∀ ft : FILETIME, ft.dwLowDateTime < 2 ^ 32 → ft.dwHighDateTime < 2 ^ 32 →
      (ty_millis ft : Int)
        = (((ft.dwHighDateTime * 2 ^ 32 + ft.dwLowDateTime) / 10000 : Nat) - 11644473600000)
            % 2 ^ 64)
    ∧ (∀ t k : Nat, k < 10000 → (t + 11644473600000) * 10000 + k < 2 ^ 64 →
      ty_millis (FILETIME.ofTicks ((t + 11644473600000) * 10000 + k)) = t)
    ∧ (∀ a b : Nat, 11644473600000 * 10000 ≤ a → a ≤ b → b < 2 ^ 64 →
      ty_millis (FILETIME.ofTicks a) ≤ ty_millis (FILETIME.ofTicks b)) := by
  refine ⟨?_, ?_, ?_⟩
  · intro ft hlow hhigh
    rw [ty_millis_eq ft hlow hhigh]
    simp only [delta_epoch]
    omega
  · intro t k hk hfit
    rw [ty_millis_ofTicks _ hfit]
    simp only [delta_epoch]
    omega
  · intro a b hepoch hab hb
    rw [ty_millis_ofTicks a (lt_of_le_of_lt hab hb), ty_millis_ofTicks b hb]
    simp only [delta_epoch]
    omega

/-- The instant 2001-09-09 01:46:40 UTC (Unix time 1000000000 s) plus 25 ticks, whose
`FILETIME` has `dwHighDateTime = 29440209` and `dwLowDateTime = 1157595161`. -/
theorem ty_millis_exact_witness :
    (ty_millis { dwLowDateTime := 1157595161, dwHighDateTime := 29440209 } : Int)
        = (((29440209 * 2 ^ 32 + 1157595161) / 10000 : Nat) - 11644473600000) % 2 ^ 64
    ∧ ty_millis (FILETIME.ofTicks ((1000000000000 + 11644473600000) * 10000 + 25))
        = 1000000000000
    ∧ ty_millis (FILETIME.ofTicks (11644473600000 * 10000))
        ≤ ty_millis (FILETIME.ofTicks ((1000000000000 + 11644473600000) * 10000 + 25)) :=
  ⟨ty_millis_exact.1 { dwLowDateTime := 1157595161, dwHighDateTime := 29440209 }
      (by decide) (by decide),
   ty_millis_exact.2.1 1000000000000 25 (by decide) (by decide),
   ty_millis_exact.2.2 (11644473600000 * 10000)
      ((1000000000000 + 11644473600000) * 10000 + 25) (by decide) (by decide) (by decide)⟩

/-- No path of `ty_user_config` assigns `*rpath`: whatever the machine, the name and
`make_parents`, the caller variable holds afterwards what it held before. -/
theorem ty_user_config_keeps_rpath (env : Win32) (rpath : Option String) (name : String)
    (make_parents : Bool) : (ty_user_config env rpath name make_parents).2 = rpath := by
  unfold ty_user_config
  simp only
  split_ifs <;> rfl

/-- C9 fails on the code: on a machine where the folder lookup succeeds,
`ty_user_config(&p, "ty.ini", make_parents)` returns 0 for both values of `make_parents`
and the caller variable is still unassigned, although `get_special_folder` built the path
`C:\Users\u\AppData\Local\ty.ini`; `ty_find_config`, on the machine where that file
exists, returns 1 and does store the path in `*rpath`. -/
theorem ty_user_config_drops_path :
    ty_user_config exampleWin32 none "ty.ini" false = (0, none)
    ∧ ty_user_config exampleWin32 none "ty.ini" true = (0, none)
    ∧ get_special_folder exampleWin32 none CSIDL_LOCAL_APPDATA (some "ty.ini") false
        = (0, some "C:\\Users\\u\\AppData\\Local\\ty.ini")
    ∧ ty_find_config exampleWin32Found none "ty.ini"
        = (1, some "C:\\Users\\u\\AppData\\Local\\ty.ini")
    ∧ ty_user_config exampleWin32Found none "ty.ini" false = (0, none) := by
  decide

end Ty
